import Mathlib

/-!
Shallow embedding of the relay server in `src/server.js`: the WebSocket
relay session between a browser client (`ws`) and the AssemblyAI
streaming endpoint (`aaiWs`), plus the `/process-transcript` HTTP
endpoint.  Each event handler of the source is embedded as a pure
function from its inputs (the decoded payload, the upstream socket's
`readyState` at the moment the handler runs) to the ordered list of
observable effects it performs (socket sends, socket closes, console
logs).
-/

namespace Server

/-- JavaScript runtime values, restricted to the shapes the relay code
inspects.  A field absent from a decoded JSON object reads as
`undefined`; numbers are modelled as integers (no handler depends on
fractional values). -/
inductive JSValue where
  | undefined
  | null
  | bool (b : Bool)
  | num (n : Int)
  | str (s : String)
  deriving DecidableEq, Repr

/-- JavaScript truthiness of the modelled values: `undefined`, `null`,
`false`, `0` and the empty string are falsy. -/
def JSValue.truthy : JSValue → Bool
  | .undefined => false
  | .null => false
  | .bool b => b
  | .num n => n != 0
  | .str s => s != ""

/-- The JavaScript `a || b` operator on the modelled values. -/
def jsOr (a b : JSValue) : JSValue :=
  if a.truthy then a else b

/-- String coercion as performed by a template literal. -/
def JSValue.toJSString : JSValue → String
  | .undefined => "undefined"
  | .null => "null"
  | .bool true => "true"
  | .bool false => "false"
  | .num n => toString n
  | .str s => s

/-- `WebSocket.readyState` constants of the `ws` library. -/
inductive ReadyState where
  | CONNECTING
  | OPEN
  | CLOSING
  | CLOSED
  deriving DecidableEq, Repr

/-- The fields of a decoded upstream (AssemblyAI) message that the
handler at `src/server.js` lines 42-58 reads.  A field the decoded JSON
does not carry is `undefined`. -/
structure UpstreamData where
  type : JSValue
  turn_is_formatted : JSValue
  transcript : JSValue
  audio_duration_seconds : JSValue
  deriving DecidableEq, Repr

/-- The JSON text message the relay sends to the client
(`src/server.js` lines 47-51). -/
structure TranscriptMsg where
  type : String
  message_type : String
  text : JSValue
  deriving DecidableEq, Repr

/-- One observable effect performed by an event handler, in program
order.  `sendUpstreamTerminate` stands for sending the serialized
termination control message (JSON object with type Terminate) to the
upstream socket. -/
inductive Action where
  | sendUpstreamAudio (frame : List Nat)
  | sendUpstreamTerminate
  | sendClient (m : TranscriptMsg)
  | closeUpstream
  | closeClient
  | log (s : String)
  deriving DecidableEq, Repr

/-- Recognizer: the effect closes the client transport. -/
def isCloseClient : Action → Bool
  | .closeClient => true
  | _ => false

/-- Recognizer: the effect closes the upstream transport. -/
def isCloseUpstream : Action → Bool
  | .closeUpstream => true
  | _ => false

/-- Recognizer: the effect sends the Terminate control message upstream. -/
def isTerminateSend : Action → Bool
  | .sendUpstreamTerminate => true
  | _ => false

/-- Recognizer: the effect sends a message to the client. -/
def isClientSend : Action → Bool
  | .sendClient _ => true
  | _ => false

/-- Recognizer: the effect is a console log line. -/
def isLog : Action → Bool
  | .log _ => true
  | _ => false

/-- The handler registered by `aaiWs.on` for the message event,
`src/server.js` lines 42-58.  Its input is the decoded JSON payload;
`none` models the case where `JSON.parse` throws, which the
`try`/`catch` turns into a single `console.error` call. -/
def aaiMessageHandler (decoded : Option UpstreamData) : List Action :=
  match decoded with
  | none => [Action.log "Error parsing AssemblyAI message"]
  | some data =>
    if data.type = JSValue.str "Turn" then
      [Action.sendClient
        { type := "transcript"
          message_type :=
            if data.turn_is_formatted.truthy then "FinalTranscript"
            else "PartialTranscript"
          text := jsOr data.transcript (JSValue.str "") }]
    else if data.type = JSValue.str "Termination" then
      [Action.log ("AssemblyAI session terminated: "
        ++ data.audio_duration_seconds.toJSString ++ "s processed")]
    else []

/-- The handler registered by `aaiWs.on` for the error event,
`src/server.js` lines 60-62: it only logs. -/
def aaiErrorHandler (err : String) : List Action :=
  [Action.log ("AssemblyAI WebSocket error: " ++ err)]

/-- The handler registered by `aaiWs.on` for the close event,
`src/server.js` lines 64-66: it only logs the code and reason. -/
def aaiCloseHandler (code : Int) (reason : String) : List Action :=
  [Action.log ("AssemblyAI WebSocket closed: " ++ toString code
    ++ " - " ++ reason)]

/-- A frame arriving on the client socket: a binary `Buffer` of audio
bytes, or any non-binary frame. -/
inductive ClientFrame where
  | binary (bytes : List Nat)
  | textFrame (s : String)
  deriving DecidableEq, Repr

/-- The handler registered by `ws.on` for the message event,
`src/server.js` lines 68-72: forwards the frame to the upstream socket
only when it is a `Buffer` and `aaiWs.readyState === WebSocket.OPEN`. -/
def wsMessageHandler (msg : ClientFrame) (aaiState : ReadyState) : List Action :=
  match msg with
  | .binary b =>
      if aaiState = ReadyState.OPEN then [Action.sendUpstreamAudio b] else []
  | .textFrame _ => []

/-- The handler registered by `ws.on` for the close event,
`src/server.js` lines 74-81: sends the Terminate control message only
when the upstream socket is `OPEN`, then unconditionally calls
`aaiWs.close()` and logs. -/
def wsCloseHandler (aaiState : ReadyState) : List Action :=
  (if aaiState = ReadyState.OPEN then [Action.sendUpstreamTerminate] else [])
    ++ [Action.closeUpstream, Action.log "Client disconnected"]

/-- A sequence of client-socket message deliveries, each paired with the
upstream socket's `readyState` at the moment the handler runs; the
single-threaded runtime runs the handlers one after the other, so the
session's effect trace is the concatenation of the handlers' traces. -/
def relaySequence : List (ClientFrame × ReadyState) → List Action
  | [] => []
  | (m, st) :: rest => wsMessageHandler m st ++ relaySequence rest

/-- The audio payloads sent upstream, in order, within an effect trace. -/
def forwardedAudio (acts : List Action) : List (List Nat) :=
  acts.filterMap fun a =>
    match a with
    | Action.sendUpstreamAudio b => some b
    | _ => none

/-- The payloads of exactly those client frames that are binary and
arrive while the upstream socket is `OPEN`, in arrival order. -/
def openBinaryPayloads (xs : List (ClientFrame × ReadyState)) : List (List Nat) :=
  xs.filterMap fun p =>
    match p.1 with
    | ClientFrame.binary b =>
        if p.2 = ReadyState.OPEN then some b else none
    | ClientFrame.textFrame _ => none

/-- A JSON value, as produced by `JSON.parse` on the language model's
reply in the `/process-transcript` handler. -/
inductive Json where
  | null
  | bool (b : Bool)
  | num (n : Int)
  | str (s : String)
  | arr (elems : List Json)
  | obj (fields : List (String × Json))

/-- Field lookup in a decoded JSON object. -/
def lookupField : List (String × Json) → String → Option Json
  | [], _ => none
  | (k, v) :: rest, key => if k = key then some v else lookupField rest key

/-- `j.get key`: the value of `key` when `j` is an object carrying it. -/
def Json.get : Json → String → Option Json
  | .obj fields, key => lookupField fields key
  | _, _ => none

/-- Validation of one element of `competitors` against the Zod schema
of `src/server.js` lines 97-99: an object whose `name` is a string of
at most 255 characters. -/
def validCompetitor (j : Json) : Bool :=
  match j.get "name" with
  | some (Json.str s) => s.length ≤ 255
  | _ => false

/-- Validation of one element of `objections` against the Zod schema of
`src/server.js` lines 100-104. -/
def validObjection (j : Json) : Bool :=
  (match j.get "type" with
   | some (Json.str s) => s.length ≤ 50
   | _ => false)
  && (match j.get "description" with
      | some (Json.str s) => s.length ≤ 130000
      | _ => false)
  && (match j.get "address" with
      | some (Json.str s) => s.length ≤ 130000
      | _ => false)

/-- Validation against the `interviewSchema` Zod object of
`src/server.js` lines 95-105: a `transcript` string, a `competitors`
array of valid competitor objects and an `objections` array of valid
objection objects; extra keys are allowed (Zod strips, not rejects,
them). -/
def validInterview (j : Json) : Bool :=
  (match j.get "transcript" with
   | some (Json.str _) => true
   | _ => false)
  && (match j.get "competitors" with
      | some (Json.arr xs) => xs.all validCompetitor
      | _ => false)
  && (match j.get "objections" with
      | some (Json.arr xs) => xs.all validObjection
      | _ => false)

/-- The response the `/process-transcript` handler produces:
`res.status(code).json` with an error message, or `res.json` with the
extracted object. -/
inductive HttpResult where
  | status (code : Nat) (errorMsg : String)
  | json (body : Json)

/-- Whether the response is an error response. -/
def HttpResult.isError : HttpResult → Bool
  | .status _ _ => true
  | .json _ => false

/-- The language model's reply after `JSON.parse`, `none` when parsing
throws; `invalidOutput` holds exactly when the reply fails validation
against the fixed schema (an unparseable reply matches no schema). -/
def invalidOutput : Option Json → Bool
  | none => true
  | some j => ! validInterview j

/-- The `/process-transcript` handler, `src/server.js` lines 85-162,
with the remote language-model interaction abstracted into its outcome
`lmOutput` (the reply content after `JSON.parse`, `none` when parsing
throws).  `transcript` is the `transcript` field of the request body
(`undefined` when absent).  The handler rejects with 400 when
`!transcript` (JavaScript truthiness), returns the parsed object when
it passes the Zod validation, and answers 500 from the `catch` block
otherwise. -/
def processTranscript (transcript : JSValue) (lmOutput : Option Json) : HttpResult :=
  if ! transcript.truthy then
    HttpResult.status 400 "Transcript is required"
  else
    match lmOutput with
    | none => HttpResult.status 500 "Failed to process transcript"
    | some j =>
        if validInterview j then HttpResult.json j
        else HttpResult.status 500 "Failed to process transcript"

/-- A concrete language-model reply that passes the schema validation. -/
def sampleInterview : Json :=
  Json.obj
    [("transcript", Json.str "hello world"),
     ("competitors", Json.arr [Json.obj [("name", Json.str "Acme")]]),
     ("objections", Json.arr
       [Json.obj
         [("type", Json.str "Price"),
          ("description", Json.str "Too expensive."),
          ("address", Json.str "Offered a discount.")]])]

/-! ## Theorems -/

/-- C2: for every upstream message whose decoded payload has type
"Turn", with `turn_is_formatted` a boolean and `transcript` a string or
absent as the upstream protocol specifies, the handler emits exactly
one client message, whose `message_type` is "FinalTranscript" iff
`turn_is_formatted` is `true` and "PartialTranscript" otherwise, and
whose `text` is the string payload of `transcript` when present and the
empty string when absent — a string in every case, never null or
undefined. -/
theorem turn_normalization (data : UpstreamData) (tif : Bool) (tr : Option String)
    (htype : data.type = JSValue.str "Turn")
    (hf : data.turn_is_formatted = JSValue.bool tif)
    (ht : data.transcript = (match tr with
      | some s => JSValue.str s
      | none => JSValue.undefined)) :
    aaiMessageHandler (some data) =
      [Action.sendClient
        { type := "transcript"
          message_type := if tif then "FinalTranscript" else "PartialTranscript"
          text := JSValue.str (tr.getD "") }] := by
  simp only [aaiMessageHandler]
  rw [if_pos htype, hf, ht]
  cases tr with
  | none => simp [jsOr, JSValue.truthy]
  | some s =>
    by_cases hs : s = ""
    · simp [jsOr, JSValue.truthy, hs]
    · simp [jsOr, JSValue.truthy, hs]

/-- Witness for C2: a concrete formatted turn carrying "hello". -/
theorem turn_normalization_witness :
    (UpstreamData.mk (JSValue.str "Turn") (JSValue.bool true)
        (JSValue.str "hello") JSValue.undefined).type = JSValue.str "Turn" ∧
    aaiMessageHandler (some (UpstreamData.mk (JSValue.str "Turn")
        (JSValue.bool true) (JSValue.str "hello") JSValue.undefined)) =
      [Action.sendClient
        { type := "transcript"
          message_type := if true then "FinalTranscript" else "PartialTranscript"
          text := JSValue.str ((some "hello").getD "") }] :=
  ⟨rfl, turn_normalization _ true (some "hello") rfl rfl rfl⟩

/-- C5: an upstream message whose payload is not decodable is caught by
the `try`/`catch`: the handler produces exactly one log line, sends
nothing to the client, sends nothing upstream and closes neither
transport, so link and session continue. -/
theorem malformed_payload_dropped :
    (aaiMessageHandler none).countP isClientSend = 0 ∧
    (aaiMessageHandler none).countP isTerminateSend = 0 ∧
    (aaiMessageHandler none).countP isCloseUpstream = 0 ∧
    (aaiMessageHandler none).countP isCloseClient = 0 ∧
    (aaiMessageHandler none).countP isLog = 1 := by
  decide

/-- C6: an upstream event whose decoded type is neither "Turn" nor
"Termination" produces no effect at all: nothing is sent to the client
and nothing else happens. -/
theorem unrecognized_type_ignored (data : UpstreamData)
    (h1 : data.type ≠ JSValue.str "Turn")
    (h2 : data.type ≠ JSValue.str "Termination") :
    aaiMessageHandler (some data) = [] := by
  simp only [aaiMessageHandler]
  rw [if_neg h1, if_neg h2]

/-- Witness for C6: a concrete event of type "SessionBegins". -/
theorem unrecognized_type_ignored_witness :
    (UpstreamData.mk (JSValue.str "SessionBegins") JSValue.undefined
        JSValue.undefined JSValue.undefined).type ≠ JSValue.str "Turn" ∧
    (UpstreamData.mk (JSValue.str "SessionBegins") JSValue.undefined
        JSValue.undefined JSValue.undefined).type ≠ JSValue.str "Termination" ∧
    aaiMessageHandler (some (UpstreamData.mk (JSValue.str "SessionBegins")
        JSValue.undefined JSValue.undefined JSValue.undefined)) = [] :=
  ⟨by decide, by decide,
    unrecognized_type_ignored _ (by decide) (by decide)⟩

/-- C7: an upstream event of type "Termination" is only logged (the log
line carries `audio_duration_seconds`): no message goes to the client,
nothing is sent upstream and neither transport is closed by the
handler. -/
theorem termination_logged_only (data : UpstreamData)
    (h : data.type = JSValue.str "Termination") :
    aaiMessageHandler (some data) =
      [Action.log ("AssemblyAI session terminated: "
        ++ data.audio_duration_seconds.toJSString ++ "s processed")] ∧
    (aaiMessageHandler (some data)).countP isClientSend = 0 ∧
    (aaiMessageHandler (some data)).countP isCloseUpstream = 0 ∧
    (aaiMessageHandler (some data)).countP isCloseClient = 0 := by
  have hne : data.type ≠ JSValue.str "Turn" := by rw [h]; decide
  simp only [aaiMessageHandler]
  rw [if_neg hne, if_pos h]
  refine ⟨rfl, ?_, ?_, ?_⟩ <;> rfl

/-- Witness for C7: the Termination event with 12 seconds processed. -/
theorem termination_logged_only_witness :
    (UpstreamData.mk (JSValue.str "Termination") JSValue.undefined
        JSValue.undefined (JSValue.num 12)).type = JSValue.str "Termination" ∧
    (aaiMessageHandler (some (UpstreamData.mk (JSValue.str "Termination")
        JSValue.undefined JSValue.undefined (JSValue.num 12))) =
      [Action.log ("AssemblyAI session terminated: "
        ++ (JSValue.num 12).toJSString ++ "s processed")] ∧
    (aaiMessageHandler (some (UpstreamData.mk (JSValue.str "Termination")
        JSValue.undefined JSValue.undefined (JSValue.num 12)))).countP isClientSend = 0 ∧
    (aaiMessageHandler (some (UpstreamData.mk (JSValue.str "Termination")
        JSValue.undefined JSValue.undefined (JSValue.num 12)))).countP isCloseUpstream = 0 ∧
    (aaiMessageHandler (some (UpstreamData.mk (JSValue.str "Termination")
        JSValue.undefined JSValue.undefined (JSValue.num 12)))).countP isCloseClient = 0) :=
  ⟨rfl, termination_logged_only _ rfl⟩

/-- C1 counterexample: the claim says an upstream close event while the
session is active causes exactly one close of the client transport; at
the concrete close event with code 1006 and empty reason, the handler
performs zero client-transport closes. -/
theorem upstream_close_client_close_cx :
    ¬ (aaiCloseHandler 1006 "").countP isCloseClient = 1 := by
  decide

/-- C1 amended: an upstream transport close or error event causes no
close of the client transport and sends no termination message
upstream; each handler performs exactly one log line and nothing
else. -/
theorem upstream_close_error_log_only (code : Int) (reason err : String) :
    (aaiCloseHandler code reason).countP isCloseClient = 0 ∧
    (aaiCloseHandler code reason).countP isTerminateSend = 0 ∧
    (aaiCloseHandler code reason).countP isClientSend = 0 ∧
    (aaiCloseHandler code reason).countP isLog = 1 ∧
    (aaiErrorHandler err).countP isCloseClient = 0 ∧
    (aaiErrorHandler err).countP isTerminateSend = 0 ∧
    (aaiErrorHandler err).countP isClientSend = 0 ∧
    (aaiErrorHandler err).countP isLog = 1 := by
  refine ⟨?_, ?_, ?_, ?_, ?_, ?_, ?_, ?_⟩ <;> rfl

/-- C3 counterexample: the claim says a graceful client disconnect
sends exactly one Terminate control message upstream regardless of the
upstream link's state; when the disconnect happens while the upstream
socket is still `CONNECTING`, the handler sends none. -/
theorem client_close_terminate_cx :
    ¬ (wsCloseHandler ReadyState.CONNECTING).countP isTerminateSend = 1 := by
  decide

/-- C3 amended: on a graceful client disconnect the handler sends
exactly one Terminate control message upstream when the upstream socket
is `OPEN` at that moment and none otherwise; in every state it then
issues exactly one close of the upstream transport, and in the `OPEN`
case the Terminate send precedes the close in the effect trace. -/
theorem client_close_behaviour (st : ReadyState) :
    (wsCloseHandler st).countP isTerminateSend =
      (if st = ReadyState.OPEN then 1 else 0) ∧
    (wsCloseHandler st).countP isCloseUpstream = 1 ∧
    wsCloseHandler ReadyState.OPEN =
      [Action.sendUpstreamTerminate, Action.closeUpstream,
       Action.log "Client disconnected"] := by
  cases st <;> exact ⟨by decide, by decide, by decide⟩

/-- C10: the client-disconnect handler issues exactly one close of the
upstream link in every upstream link state, including `CONNECTING` and
`CLOSED`; only the Terminate control message is conditional on the link
being `OPEN`. -/
theorem client_close_always_closes_upstream (st : ReadyState) :
    (wsCloseHandler st).countP isCloseUpstream = 1 ∧
    (wsCloseHandler st).countP isTerminateSend =
      (if st = ReadyState.OPEN then 1 else 0) := by
  cases st <;> exact ⟨by decide, by decide⟩

/-- C4: a binary client frame is forwarded upstream exactly when the
upstream socket is `OPEN` when the handler runs, with no other effect;
over any sequence of deliveries, the audio sent upstream is exactly the
subsequence of binary frames that arrived while the socket was `OPEN`,
in arrival order — frames arriving in any other state are dropped, not
buffered and not reordered, and no error is produced. -/
theorem audio_forwarding (b : List Nat) (st : ReadyState)
    (xs : List (ClientFrame × ReadyState)) :
    wsMessageHandler (ClientFrame.binary b) st =
      (if st = ReadyState.OPEN then [Action.sendUpstreamAudio b] else []) ∧
    forwardedAudio (relaySequence xs) = openBinaryPayloads xs := by
  constructor
  · rfl
  · induction xs with
    | nil => rfl
    | cons p rest ih =>
      obtain ⟨m, pst⟩ := p
      simp only [relaySequence, openBinaryPayloads, forwardedAudio,
        List.filterMap_append, List.filterMap_cons] at *
      cases m with
      | binary bb =>
        by_cases hst : pst = ReadyState.OPEN
        · simp [wsMessageHandler, hst, forwardedAudio, ih]
        · simp [wsMessageHandler, hst, forwardedAudio, ih]
      | textFrame s => simp [wsMessageHandler, forwardedAudio, ih]

/-- C8: a non-binary frame received from the client produces no effect
at all: nothing is forwarded upstream and no error is reported. -/
theorem nonbinary_ignored (s : String) (st : ReadyState) :
    wsMessageHandler (ClientFrame.textFrame s) st = [] :=
  rfl

/-- C9 counterexample: the claim says an error status is returned iff
no transcript was supplied or the language model's output fails
validation; at the concrete request carrying the supplied (but empty)
transcript string with a schema-valid model reply, the handler returns
an error although a transcript was supplied and validation succeeds. -/
theorem process_transcript_error_cx :
    ¬ ((processTranscript (JSValue.str "") (some sampleInterview)).isError = true ↔
        (JSValue.str "" = JSValue.undefined ∨ validInterview sampleInterview = false)) := by
  decide

/-- C9 amended: the structured-extraction handler returns an error
status iff the request body's transcript is absent or JavaScript-falsy
(in particular the empty string) or the language model's output fails
validation against the fixed schema; otherwise it returns exactly the
parsed, schema-valid model reply. -/
theorem process_transcript_spec (t : JSValue) (o : Option Json) :
    (processTranscript t o).isError = (! t.truthy || invalidOutput o) ∧
    ((! t.truthy || invalidOutput o) = false →
      processTranscript t o = HttpResult.json (o.getD Json.null)) := by
  constructor
  · unfold processTranscript invalidOutput HttpResult.isError
    cases ht : t.truthy with
    | false => simp
    | true =>
      cases o with
      | none => simp
      | some j => cases hv : validInterview j <;> simp [hv]
  · intro h
    cases htt : t.truthy with
    | false => rw [htt] at h; simp at h
    | true =>
      cases o with
      | none => simp [invalidOutput, htt] at h
      | some j =>
        cases hv : validInterview j with
        | false => simp [invalidOutput, htt, hv] at h
        | true => simp [processTranscript, htt, hv]

/-- Witness for C9 amended: a nonempty transcript with a schema-valid
model reply yields the reply itself as the response body. -/
theorem process_transcript_spec_witness :
    (processTranscript (JSValue.str "ok") (some sampleInterview)).isError =
      (! (JSValue.str "ok").truthy || invalidOutput (some sampleInterview)) ∧
    processTranscript (JSValue.str "ok") (some sampleInterview) =
      HttpResult.json ((some sampleInterview).getD Json.null) :=
  ⟨(process_transcript_spec (JSValue.str "ok") (some sampleInterview)).1,
   (process_transcript_spec (JSValue.str "ok") (some sampleInterview)).2 (by decide)⟩

end Server
